import Mathlib

/-!
Verification of the `watcher` napi file-watcher crates.

The repository holds two near-identical crates, `src/src/lib.rs` (modelled in
namespace `Watcher`) and `src/watcher/src/lib.rs` (modelled in namespace
`Watcher.Dup`).  External collaborators — the filesystem, the `globset`
pattern compiler, the `notify` platform watcher and the
`notify_debouncer_full` debouncer — are modelled as explicit parameters or,
where the spec documents their contract, from the spec.
-/

namespace Watcher

/-- A filesystem path, modelled as an absolute/relative flag plus the list of
normal components (the shape `std::path::Path::components` exposes). -/
structure FsPath where
  absolute : Bool
  components : List String
deriving DecidableEq

/-- Drop a leading component list from another; `none` when the first list is
not a leading segment of the second. -/
def dropPre : List String → List String → Option (List String)
  | [], rest => some rest
  | _ :: _, [] => none
  | b :: bs, p :: ps => if b = p then dropPre bs ps else none

/-- `Path::strip_prefix`: succeeds exactly when `base`'s components (with the
root marker counted as a component) lead `path`'s, returning the relative
remainder.  An empty relative base strips nothing and returns `path` itself. -/
def strip_prefix (path base : FsPath) : Option FsPath :=
  if base.absolute then
    if path.absolute then
      (dropPre base.components path.components).map (fun r => ⟨false, r⟩)
    else none
  else
    match base.components with
    | [] => some path
    | _ :: _ =>
      if path.absolute then none
      else (dropPre base.components path.components).map (fun r => ⟨false, r⟩)

/-- `Path::to_string_lossy` for valid-UTF-8 Unix paths. -/
def pathToString (p : FsPath) : String :=
  (if p.absolute then "/" else "") ++ String.intercalate "/" p.components

/-- A compiled glob (external `globset::Glob`); it retains its pattern text. -/
structure Glob where
  pattern : String
deriving DecidableEq

/-- A compiled glob set (external `globset::GlobSet`): the globs it was built
from plus its match oracle. -/
structure GlobSet where
  globs : List Glob
  is_match : FsPath → Bool

/-- `should_ignore` from `src/src/lib.rs` (lines 74-84): try the path made
relative to the watch root first; if that check does not fire, try the full
path. -/
def should_ignore (path : FsPath) (glob_set : GlobSet) (base_path : FsPath) : Bool :=
  match strip_prefix path base_path with
  | some relative =>
    if glob_set.is_match relative then true
    else glob_set.is_match path
  | none => glob_set.is_match path

/-- Which glob-set queries `should_ignore` performs, in order: the
relative-form query (when the strip succeeds), then the full-path query only
when no earlier query matched. -/
inductive CheckKind where
  | relative
  | absolute
deriving DecidableEq

/-- Instrumented trace of the glob-set consultations made by
`should_ignore`, mirroring its branch structure. -/
def should_ignore_checks (path : FsPath) (glob_set : GlobSet) (base_path : FsPath) :
    List CheckKind :=
  match strip_prefix path base_path with
  | some relative =>
    if glob_set.is_match relative then [CheckKind.relative]
    else [CheckKind.relative, CheckKind.absolute]
  | none => [CheckKind.absolute]

/-! ### The `notify` crate's event-kind datatype (external input alphabet). -/

inductive AccessMode where
  | any | execute | read | write | other
deriving DecidableEq

inductive AccessKind where
  | any | read
  | open_ (mode : AccessMode)
  | close (mode : AccessMode)
  | other
deriving DecidableEq

inductive CreateKind where
  | any | file | folder | other
deriving DecidableEq

inductive DataChange where
  | any | size | content | other
deriving DecidableEq

inductive MetadataKind where
  | any | accessTime | writeTime | permissions | ownership | extended | other
deriving DecidableEq

inductive RenameMode where
  | any | to | from_ | both | other
deriving DecidableEq

inductive ModifyKind where
  | any
  | data (change : DataChange)
  | metadata (kind : MetadataKind)
  | name (mode : RenameMode)
  | other
deriving DecidableEq

inductive RemoveKind where
  | any | file | folder | other
deriving DecidableEq

inductive EventKind where
  | any
  | access (kind : AccessKind)
  | create (kind : CreateKind)
  | modify (kind : ModifyKind)
  | remove (kind : RemoveKind)
  | other
deriving DecidableEq

/-- `event_kind_to_type` from `src/src/lib.rs` (lines 87-94). -/
def event_kind_to_type (kind : EventKind) : Option String :=
  match kind with
  | .create .file | .create .folder | .create .any => some "create"
  | .modify (.data _) | .modify (.name _) | .modify .any | .modify (.metadata _) =>
    some "update"
  | .remove .file | .remove .folder | .remove .any => some "delete"
  | _ => none

/-! ### napi error model and subscription lifecycle. -/

/-- The napi status codes this crate constructs errors with. -/
inductive Status where
  | invalidArg
  | genericFailure
  | pendingException
deriving DecidableEq

/-- A napi `Error`: a status plus a reason string. -/
structure NapiError where
  status : Status
  reason : String
deriving DecidableEq

/-- The napi `ValueType` tag of the raw JS callback argument. -/
inductive ValueType where
  | undefined | null | boolean | number | string | symbol | object
  | function | external | bigint
deriving DecidableEq

/-- `WatchOptions` (lines 26-31): the one recognized option. -/
structure WatchOptions where
  ignore : Option (List String)

/-- `Subscription` (lines 42-47): the shared running flag and the owned
debouncer/watch resource (its presence modelled as `Option Unit`). -/
structure Subscription where
  running : Bool
  watcher : Option Unit
deriving DecidableEq

/-- Outcome of one `unsubscribe` call: the returned `Result`, the
post-state, and whether this call released the live watch resource (i.e.
whether `watcher.take()` yielded a value that is then dropped). -/
structure UnsubOutcome where
  result : Except NapiError Unit
  state : Subscription
  released : Bool

/-- `Subscription::unsubscribe` (lines 53-58): store `false` into the running
flag, take the watcher out so it is dropped, return `Ok(())`. -/
def unsubscribe (s : Subscription) : UnsubOutcome :=
  { result := Except.ok ()
    state := { running := false, watcher := none }
    released := s.watcher.isSome }

/-- `n` successive `unsubscribe` calls on a subscription, counting how many
of them released the watch resource. -/
def unsubMany : Subscription → Nat → Subscription × Nat
  | s, 0 => (s, 0)
  | s, n + 1 =>
    let o := unsubscribe s
    let r := unsubMany o.state n
    (r.1, (if o.released then 1 else 0) + r.2)

/-! ### Glob-set construction (`build_glob_set`). -/

/-- The compile loop of `build_glob_set` (lines 65-68): each pattern goes
through the external `Glob::new` (the `globNew` parameter); the first failure
aborts with an `InvalidArg` error naming the offending pattern. -/
def compileGlobs (globNew : String → Except String Glob) :
    List String → Except NapiError (List Glob)
  | [] => Except.ok []
  | pat :: rest =>
    match globNew pat with
    | Except.error e =>
      Except.error ⟨Status.invalidArg, "Invalid glob pattern \x27" ++ pat ++ "\x27: " ++ e⟩
    | Except.ok g =>
      match compileGlobs globNew rest with
      | Except.error err => Except.error err
      | Except.ok gs => Except.ok (g :: gs)

/-- `build_glob_set` (lines 62-71): compile every pattern, then build one
matcher from all of them via the external `GlobSetBuilder::build` (the
`globBuild` parameter). -/
def build_glob_set (globNew : String → Except String Glob)
    (globBuild : List Glob → Except String (FsPath → Bool))
    (patterns : List String) : Except NapiError GlobSet :=
  match compileGlobs globNew patterns with
  | Except.error err => Except.error err
  | Except.ok globs =>
    match globBuild globs with
    | Except.error e =>
      Except.error ⟨Status.genericFailure, "Failed to build glob set: " ++ e⟩
    | Except.ok m => Except.ok ⟨globs, m⟩

/-! ### `subscribe` (validation prologue and resource acquisition order). -/

/-- The filesystem queries `subscribe` makes, as an external model. -/
structure FsModel where
  pathExists : String → Bool
  isDir : String → Bool
  canonicalize : String → Except String FsPath

/-- Side effects `subscribe` can perform after validation, in program
order. -/
inductive Effect where
  | globBuilt
  | tsfnBuilt
  | debouncerCreated
  | watchStarted
deriving DecidableEq

/-- What a `subscribe` call produces: the returned `Result`, the message of
the `JsTypeError` thrown into the JS environment (if any), and the trace of
side effects performed. -/
structure SubscribeOutcome where
  result : Except NapiError Subscription
  thrown : Option String
  effects : List Effect

/-- `subscribe` from `src/src/lib.rs` (lines 106-189).  Validation order:
empty directory, non-function callback, nonexistent path, non-directory
path, canonicalization, glob-set compilation; only then are the threadsafe
function, the debouncer and the platform watch acquired.  The first four
failures throw a `JsTypeError` into the environment and return a
`PendingException` error.  External fallible steps (`canonicalize`, glob
compilation and build, tsfn build, debouncer creation, `watch`) are
parameters. -/
def subscribe (fs : FsModel) (globNew : String → Except String Glob)
    (globBuild : List Glob → Except String (FsPath → Bool))
    (tsfnRes : Except NapiError Unit)
    (debouncerRes : Except String Unit) (watchRes : Except String Unit)
    (directory : String) (callbackType : ValueType)
    (options : Option WatchOptions) : SubscribeOutcome :=
  if directory = "" then
    { result := Except.error ⟨Status.pendingException, ""⟩
      thrown := some "Directory path cannot be empty", effects := [] }
  else if callbackType ≠ ValueType.function then
    { result := Except.error ⟨Status.pendingException, ""⟩
      thrown := some "Callback must be a function", effects := [] }
  else if fs.pathExists directory = false then
    { result := Except.error ⟨Status.pendingException, ""⟩
      thrown := some ("Directory does not exist: " ++ directory), effects := [] }
  else if fs.isDir directory = false then
    { result := Except.error ⟨Status.pendingException, ""⟩
      thrown := some ("Path is not a directory: " ++ directory), effects := [] }
  else
    match fs.canonicalize directory with
    | Except.error e =>
      { result := Except.error ⟨Status.genericFailure, "Failed to canonicalize path: " ++ e⟩
        thrown := none, effects := [] }
    | Except.ok _base_path =>
      let ignore_patterns := (options.bind (fun o => o.ignore)).getD []
      match build_glob_set globNew globBuild ignore_patterns with
      | Except.error err =>
        { result := Except.error err, thrown := none, effects := [] }
      | Except.ok _glob_set =>
        match tsfnRes with
        | Except.error err =>
          { result := Except.error err, thrown := none
            effects := [Effect.globBuilt] }
        | Except.ok _ =>
          match debouncerRes with
          | Except.error e =>
            { result := Except.error ⟨Status.genericFailure, "Failed to create watcher: " ++ e⟩
              thrown := none, effects := [Effect.globBuilt, Effect.tsfnBuilt] }
          | Except.ok _ =>
            match watchRes with
            | Except.error e =>
              { result := Except.error ⟨Status.genericFailure, "Failed to watch directory: " ++ e⟩
                thrown := none
                effects := [Effect.globBuilt, Effect.tsfnBuilt, Effect.debouncerCreated] }
            | Except.ok _ =>
              { result := Except.ok { running := true, watcher := some () }
                thrown := none
                effects := [Effect.globBuilt, Effect.tsfnBuilt,
                            Effect.debouncerCreated, Effect.watchStarted] }

/-! ### The debounce-flush closure (lines 146-179) and delivery trace. -/

/-- A `notify` event as the debouncer hands it over: its kind and paths. -/
structure NotifyEvent where
  kind : EventKind
  paths : List FsPath

/-- A `notify_debouncer_full::DebouncedEvent`; the closure only reads its
inner `event`. -/
structure DebouncedEvent where
  event : NotifyEvent

/-- A `WatchEvent` (lines 19-23): path string and event-type string. -/
structure WatchEvent where
  path : String
  event_type : String
deriving DecidableEq

/-- `WatchCallbackResult` (lines 36-39). -/
structure WatchCallbackResult where
  error : Option NapiError
  events : List WatchEvent

/-- The event-collection loop of the flush closure (lines 153-165): classify
each debounced event, drop unclassified kinds, filter each path through
`should_ignore`, and render survivors as `WatchEvent`s in order. -/
def collectEvents (glob_set : GlobSet) (base_path : FsPath)
    (debounced : List DebouncedEvent) : List WatchEvent :=
  debounced.foldl
    (fun events de =>
      match event_kind_to_type de.event.kind with
      | some event_type =>
        events ++
          (de.event.paths.filter (fun p => ! should_ignore p glob_set base_path)).map
            (fun p => { path := pathToString p, event_type := event_type })
      | none => events)
    []

/-- The flush closure passed to `new_debouncer` (lines 146-179): read the
running flag first and bail out when it is false; otherwise build the
filtered batch and call the threadsafe function only when it is non-empty,
or deliver the joined error messages with an empty event list.  The returned
`Option` is the delivery submitted to the dispatch bridge, `none` when no
delivery is submitted. -/
def flushHandler (running : Bool) (glob_set : GlobSet) (base_path : FsPath)
    (result : Except (List String) (List DebouncedEvent)) :
    Option WatchCallbackResult :=
  if ! running then none
  else
    match result with
    | Except.ok debounced_events =>
      let events := collectEvents glob_set base_path debounced_events
      if events.isEmpty then none
      else some { error := none, events := events }
    | Except.error errors =>
      some { error := some ⟨Status.genericFailure, String.intercalate "; " errors⟩
             events := [] }

/-- Operations that act on a live subscription, as observed by the shared
state: a debouncer flush (with its result), or an `unsubscribe` call. -/
inductive WatchOp where
  | flush (result : Except (List String) (List DebouncedEvent))
  | unsub

/-- One operation step: a flush submits whatever `flushHandler` produces
under the current running flag; `unsubscribe` updates the state and submits
nothing. -/
def stepOp (glob_set : GlobSet) (base_path : FsPath) (s : Subscription) :
    WatchOp → Subscription × List WatchCallbackResult
  | WatchOp.flush r => (s, (flushHandler s.running glob_set base_path r).toList)
  | WatchOp.unsub => ((unsubscribe s).state, [])

/-- Run a sequence of operations from a state, returning the final state and
the concatenated deliveries submitted to the dispatch bridge. -/
def runOps (glob_set : GlobSet) (base_path : FsPath) :
    Subscription → List WatchOp → Subscription × List WatchCallbackResult
  | s, [] => (s, [])
  | s, op :: ops =>
    let st := stepOp glob_set base_path s op
    let rest := runOps glob_set base_path st.1 ops
    (rest.1, st.2 ++ rest.2)

end Watcher

namespace Watcher.Dup

/-- `EventType` from `src/watcher/src/lib.rs` (lines 16-25), a napi string
enum. -/
inductive EventType where
  | create
  | update
  | delete
deriving DecidableEq

/-- The JS string value each `EventType` variant carries, from the
`napi(value = ...)` annotations. -/
def eventTypeValue : EventType → String
  | EventType.create => "create"
  | EventType.update => "update"
  | EventType.delete => "delete"

/-- `should_ignore` from `src/watcher/src/lib.rs` (lines 85-93). -/
def should_ignore (path : Watcher.FsPath) (glob_set : Watcher.GlobSet)
    (base_path : Watcher.FsPath) : Bool :=
  match Watcher.strip_prefix path base_path with
  | some relative =>
    if glob_set.is_match relative then true
    else glob_set.is_match path
  | none => glob_set.is_match path

/-- `event_kind_to_type` from `src/watcher/src/lib.rs` (lines 96-103). -/
def event_kind_to_type (kind : Watcher.EventKind) : Option EventType :=
  match kind with
  | .create .file | .create .folder | .create .any => some EventType.create
  | .modify (.data _) | .modify (.name _) | .modify .any | .modify (.metadata _) =>
    some EventType.update
  | .remove .file | .remove .folder | .remove .any => some EventType.delete
  | _ => none

end Watcher.Dup

namespace Watcher.Debounce

/-- The semantic kinds the engine buffers per path. -/
inductive SemanticKind where
  | create
  | update
  | delete
deriving DecidableEq

/-- Modelled from the spec: the merge rule of the debounce-coalesce engine
(spec §4.3), whose implementation the source delegates to the external
`notify_debouncer_full` crate.  `mergeKind prior new` is the pending kind
after a `new` notification lands on an entry holding `prior`; `none` means
the entry is removed (Create then Delete cancels out).  Pairs the spec's
table leaves unlisted overwrite with the newer kind, per its "a later
notification ... overwrites (coalesces into) the stored kind". -/
def mergeKind : SemanticKind → SemanticKind → Option SemanticKind
  | SemanticKind.create, SemanticKind.create => some SemanticKind.create
  | SemanticKind.create, SemanticKind.update => some SemanticKind.create
  | SemanticKind.create, SemanticKind.delete => none
  | SemanticKind.update, SemanticKind.update => some SemanticKind.update
  | SemanticKind.update, SemanticKind.delete => some SemanticKind.delete
  | SemanticKind.update, SemanticKind.create => some SemanticKind.create
  | SemanticKind.delete, SemanticKind.create => some SemanticKind.create
  | SemanticKind.delete, SemanticKind.delete => some SemanticKind.delete
  | SemanticKind.delete, SemanticKind.update => some SemanticKind.update

/-- A classified raw notification: its path and the classifier's output
(`none` never enters the pending set, spec §4.3). -/
structure RawNote where
  path : Watcher.FsPath
  kind : Option SemanticKind

/-- The pending set of one open window: at most one entry per path. -/
def PendingSet := List (Watcher.FsPath × SemanticKind)

/-- Look up the pending kind stored for a path. -/
def findKind : List (Watcher.FsPath × SemanticKind) → Watcher.FsPath →
    Option SemanticKind
  | [], _ => none
  | e :: rest, p => if e.1 = p then some e.2 else findKind rest p

/-- Modelled from the spec: apply one classified notification to the pending
set (spec §4.3).  Unclassified notifications leave the set unchanged; a
first notification for a path inserts its kind; a later one merges by
`mergeKind`, removing the entry when the merge cancels. -/
def applyNote (pending : List (Watcher.FsPath × SemanticKind)) (n : RawNote) :
    List (Watcher.FsPath × SemanticKind) :=
  match n.kind with
  | none => pending
  | some k =>
    match findKind pending n.path with
    | none => pending ++ [(n.path, k)]
    | some prior =>
      match mergeKind prior k with
      | none => pending.filter (fun e => e.1 ≠ n.path)
      | some k2 => pending.map (fun e => if e.1 = n.path then (n.path, k2) else e)

/-- Modelled from the spec: the pending set accumulated over one open
window, starting empty (entries are cleared atomically on each flush,
spec §9). -/
def processWindow (notes : List RawNote) : List (Watcher.FsPath × SemanticKind) :=
  notes.foldl applyNote []

/-- Modelled from the spec: the entries of a flushed pending set that
survive the ignore filter and form the delivered batch (spec §4.3), using
the source's `should_ignore`. -/
def flushSurvivors (glob_set : Watcher.GlobSet) (base_path : Watcher.FsPath)
    (pending : List (Watcher.FsPath × SemanticKind)) :
    List (Watcher.FsPath × SemanticKind) :=
  pending.filter (fun e => ! Watcher.should_ignore e.1 glob_set base_path)

end Watcher.Debounce

namespace Watcher.Debounce

theorem findKind_filter_self (p : Watcher.FsPath) :
    ∀ l : List (Watcher.FsPath × SemanticKind),
      findKind (l.filter (fun e => e.1 ≠ p)) p = none := by
  intro l
  induction l with
  | nil => rfl
  | cons e rest ih =>
    simp only [List.filter_cons]
    by_cases he : e.1 = p
    · rw [if_neg (by simp [he])]
      exact ih
    · rw [if_pos (by simp [he])]
      simp only [findKind]
      rw [if_neg he]
      exact ih

theorem findKind_filter_ne (p q : Watcher.FsPath) (hqp : q ≠ p) :
    ∀ l : List (Watcher.FsPath × SemanticKind),
      findKind (l.filter (fun e => e.1 ≠ q)) p = findKind l p := by
  intro l
  induction l with
  | nil => rfl
  | cons e rest ih =>
    simp only [List.filter_cons]
    by_cases he : e.1 = q
    · have hep : e.1 ≠ p := by rw [he]; exact hqp
      rw [if_neg (by simp [he])]
      rw [ih]
      simp only [findKind]
      rw [if_neg hep]
    · rw [if_pos (by simp [he])]
      simp only [findKind]
      by_cases hep : e.1 = p
      · rw [if_pos hep, if_pos hep]
      · rw [if_neg hep, if_neg hep]
        exact ih

theorem findKind_map_ne (p q : Watcher.FsPath) (k2 : SemanticKind) (hqp : q ≠ p) :
    ∀ l : List (Watcher.FsPath × SemanticKind),
      findKind (l.map (fun e => if e.1 = q then (q, k2) else e)) p = findKind l p := by
  intro l
  induction l with
  | nil => rfl
  | cons e rest ih =>
    simp only [List.map_cons]
    by_cases he : e.1 = q
    · have hep : e.1 ≠ p := by rw [he]; exact hqp
      rw [if_pos he]
      simp only [findKind]
      rw [if_neg hqp, if_neg hep]
      exact ih
    · rw [if_neg he]
      simp only [findKind]
      by_cases hep : e.1 = p
      · rw [if_pos hep, if_pos hep]
      · rw [if_neg hep, if_neg hep]
        exact ih

theorem findKind_append_ne (p q : Watcher.FsPath) (k : SemanticKind) (hqp : q ≠ p) :
    ∀ l : List (Watcher.FsPath × SemanticKind),
      findKind (l ++ [(q, k)]) p = findKind l p := by
  intro l
  induction l with
  | nil => simp [findKind, hqp]
  | cons e rest ih =>
    by_cases hep : e.1 = p <;> simp [findKind, hep, ih]

theorem findKind_append_self (p : Watcher.FsPath) (k : SemanticKind) :
    ∀ l : List (Watcher.FsPath × SemanticKind), findKind l p = none →
      findKind (l ++ [(p, k)]) p = some k := by
  intro l
  induction l with
  | nil => simp [findKind]
  | cons e rest ih =>
    intro h
    simp only [findKind] at h
    by_cases hep : e.1 = p
    · rw [if_pos hep] at h
      exact Option.noConfusion h
    · rw [if_neg hep] at h
      rw [List.cons_append]
      simp only [findKind]
      rw [if_neg hep]
      exact ih h

theorem findKind_none_all_ne (p : Watcher.FsPath) :
    ∀ l : List (Watcher.FsPath × SemanticKind), findKind l p = none →
      ∀ e ∈ l, e.1 ≠ p := by
  intro l
  induction l with
  | nil => intro _ e he; cases he
  | cons x rest ih =>
    intro h e he
    by_cases hxp : x.1 = p
    · simp [findKind, hxp] at h
    · rcases List.mem_cons.mp he with rfl | htail
      · exact hxp
      · exact ih (by simpa [findKind, hxp] using h) e htail

theorem applyNote_other_path (p : Watcher.FsPath) (n : RawNote) (hne : n.path ≠ p)
    (l : List (Watcher.FsPath × SemanticKind)) :
    findKind (applyNote l n) p = findKind l p := by
  cases hk : n.kind with
  | none =>
    rw [show applyNote l n = l from by simp only [applyNote, hk]]
  | some k =>
    cases hf : findKind l n.path with
    | none =>
      rw [show applyNote l n = l ++ [(n.path, k)] from by simp only [applyNote, hk, hf]]
      exact findKind_append_ne p n.path k hne l
    | some prior =>
      cases hm : mergeKind prior k with
      | none =>
        rw [show applyNote l n = l.filter (fun e => e.1 ≠ n.path) from by
          simp only [applyNote, hk, hf, hm]]
        exact findKind_filter_ne p n.path hne l
      | some k2 =>
        rw [show applyNote l n = l.map (fun e => if e.1 = n.path then (n.path, k2) else e)
            from by simp only [applyNote, hk, hf, hm]]
        exact findKind_map_ne p n.path k2 hne l

theorem foldl_applyNote_other (p : Watcher.FsPath) :
    ∀ (notes : List RawNote) (l : List (Watcher.FsPath × SemanticKind)),
      (∀ n ∈ notes, n.path ≠ p) →
      findKind (List.foldl applyNote l notes) p = findKind l p := by
  intro notes
  induction notes with
  | nil => intro l _; rfl
  | cons n ns ih =>
    intro l h
    rw [List.foldl_cons]
    rw [ih (applyNote l n) (fun m hm => h m (List.mem_cons_of_mem n hm))]
    exact applyNote_other_path p n (h n (List.mem_cons_self n ns)) l

theorem applyNote_insert (p : Watcher.FsPath) (k : SemanticKind)
    (l : List (Watcher.FsPath × SemanticKind)) (h : findKind l p = none) :
    applyNote l ⟨p, some k⟩ = l ++ [(p, k)] := by
  simp only [applyNote, h]

theorem applyNote_cancel (p : Watcher.FsPath)
    (l : List (Watcher.FsPath × SemanticKind))
    (h : findKind l p = some SemanticKind.create) :
    applyNote l ⟨p, some SemanticKind.delete⟩ = l.filter (fun e => e.1 ≠ p) := by
  simp only [applyNote, h, mergeKind]

/-- Claim C5: a Create for a path followed by a Delete for the same path
within one open debounce window cancels out entirely — the pending set holds
no entry for that path after the window, and the flushed, filtered batch
contains no event for it.  The merge rule is modelled from the spec (§4.3),
since the source delegates it to the external `notify_debouncer_full`
crate. -/
theorem c5_create_then_delete_cancels (p : Watcher.FsPath)
    (pre mid post : List RawNote)
    (hpre : ∀ n ∈ pre, n.path ≠ p) (hmid : ∀ n ∈ mid, n.path ≠ p)
    (hpost : ∀ n ∈ post, n.path ≠ p)
    (gs : Watcher.GlobSet) (b : Watcher.FsPath) :
    findKind (processWindow
      (pre ++ ⟨p, some SemanticKind.create⟩ ::
        (mid ++ ⟨p, some SemanticKind.delete⟩ :: post))) p = none
    ∧ ∀ e ∈ flushSurvivors gs b (processWindow
        (pre ++ ⟨p, some SemanticKind.create⟩ ::
          (mid ++ ⟨p, some SemanticKind.delete⟩ :: post))), e.1 ≠ p := by
  have key : findKind (processWindow
      (pre ++ ⟨p, some SemanticKind.create⟩ ::
        (mid ++ ⟨p, some SemanticKind.delete⟩ :: post))) p = none := by
    unfold processWindow
    rw [List.foldl_append, List.foldl_cons, List.foldl_append, List.foldl_cons]
    have h1 : findKind (List.foldl applyNote [] pre) p = none :=
      (foldl_applyNote_other p pre [] hpre).trans rfl
    rw [foldl_applyNote_other p post _ hpost]
    rw [applyNote_cancel p _ ?_]
    · exact findKind_filter_self p _
    · rw [foldl_applyNote_other p mid _ hmid]
      rw [applyNote_insert p SemanticKind.create _ h1]
      exact findKind_append_self p SemanticKind.create _ h1
  refine ⟨key, ?_⟩
  intro e he
  exact findKind_none_all_ne p _ key e (List.mem_of_mem_filter he)

/-- Witness for claim C5: a concrete window with an unrelated update before
and an unclassified notification after the Create/Delete pair for
`/r/b.txt`. -/
theorem c5_create_then_delete_cancels_witness :
    findKind (processWindow
      ([⟨⟨true, ["r", "a.txt"]⟩, some SemanticKind.update⟩] ++
        ⟨⟨true, ["r", "b.txt"]⟩, some SemanticKind.create⟩ ::
        ([] ++ ⟨⟨true, ["r", "b.txt"]⟩, some SemanticKind.delete⟩ ::
          [⟨⟨true, ["r", "c.txt"]⟩, none⟩]))) ⟨true, ["r", "b.txt"]⟩ = none :=
  (c5_create_then_delete_cancels ⟨true, ["r", "b.txt"]⟩
    [⟨⟨true, ["r", "a.txt"]⟩, some SemanticKind.update⟩] []
    [⟨⟨true, ["r", "c.txt"]⟩, none⟩]
    (by decide) (by decide) (by decide)
    ⟨[], fun _ => false⟩ ⟨true, ["r"]⟩).1

end Watcher.Debounce

namespace Watcher

theorem runOps_final_state_unsub (gs : GlobSet) (b : FsPath) :
    ∀ (l : List WatchOp) (s : Subscription),
      (runOps gs b s (l ++ [WatchOp.unsub])).1 = ⟨false, none⟩ := by
  intro l
  induction l with
  | nil => intro s; rfl
  | cons op ops ih => intro s; simpa [runOps] using ih (stepOp gs b s op).1

theorem runOps_stopped_no_delivery (gs : GlobSet) (b : FsPath) :
    ∀ (ops : List WatchOp) (s : Subscription), s.running = false →
      (runOps gs b s ops).2 = [] := by
  intro ops
  induction ops with
  | nil => intro s _; rfl
  | cons op ops ih =>
    intro s hs
    cases op with
    | flush r => simp [runOps, stepOp, flushHandler, hs, ih s hs]
    | unsub => simpa [runOps, stepOp, unsubscribe] using ih ⟨false, none⟩ rfl

/-- Claim C1: once `unsubscribe` has completed, every later flush observes
the shared running flag `false` at its very first step and returns without
calling the dispatch bridge, so no new delivery is submitted: any run of
operations executed after a run ending in `unsubscribe` produces an empty
delivery list. -/
theorem c1_no_post_unsubscribe_delivery (gs : GlobSet) (b : FsPath)
    (s : Subscription) (ops1 ops2 : List WatchOp) :
    (runOps gs b (runOps gs b s (ops1 ++ [WatchOp.unsub])).1 ops2).2 = [] := by
  rw [runOps_final_state_unsub gs b ops1 s]
  exact runOps_stopped_no_delivery gs b ops2 ⟨false, none⟩ rfl

/-- Claim C2: `event_kind_to_type` follows the fixed mapping — any
`Create(File|Folder|Any)` yields `"create"`, any
`Modify(Data|Name|Metadata|Any)` yields `"update"`, any
`Remove(File|Folder|Any)` yields `"delete"`, and every other platform kind
yields `none`; for every kind the result is exactly one of these four. -/
theorem c2_classification_total :
    event_kind_to_type (EventKind.create CreateKind.file) = some "create"
    ∧ event_kind_to_type (EventKind.create CreateKind.folder) = some "create"
    ∧ event_kind_to_type (EventKind.create CreateKind.any) = some "create"
    ∧ (∀ d, event_kind_to_type (EventKind.modify (ModifyKind.data d)) = some "update")
    ∧ (∀ r, event_kind_to_type (EventKind.modify (ModifyKind.name r)) = some "update")
    ∧ (∀ m, event_kind_to_type (EventKind.modify (ModifyKind.metadata m)) = some "update")
    ∧ event_kind_to_type (EventKind.modify ModifyKind.any) = some "update"
    ∧ event_kind_to_type (EventKind.remove RemoveKind.file) = some "delete"
    ∧ event_kind_to_type (EventKind.remove RemoveKind.folder) = some "delete"
    ∧ event_kind_to_type (EventKind.remove RemoveKind.any) = some "delete"
    ∧ event_kind_to_type EventKind.any = none
    ∧ (∀ a, event_kind_to_type (EventKind.access a) = none)
    ∧ event_kind_to_type (EventKind.create CreateKind.other) = none
    ∧ event_kind_to_type (EventKind.modify ModifyKind.other) = none
    ∧ event_kind_to_type (EventKind.remove RemoveKind.other) = none
    ∧ event_kind_to_type EventKind.other = none
    ∧ (∀ k, event_kind_to_type k = some "create" ∨ event_kind_to_type k = some "update"
        ∨ event_kind_to_type k = some "delete" ∨ event_kind_to_type k = none) := by
  refine ⟨rfl, rfl, rfl, fun d => rfl, fun r => rfl, fun m => rfl, rfl, rfl, rfl, rfl,
    rfl, fun a => rfl, rfl, rfl, rfl, rfl, fun k => ?_⟩
  cases k with
  | create ck => cases ck <;> simp [event_kind_to_type]
  | modify mk => cases mk <;> simp [event_kind_to_type]
  | remove rk => cases rk <;> simp [event_kind_to_type]
  | access a => simp [event_kind_to_type]
  | any => simp [event_kind_to_type]
  | other => simp [event_kind_to_type]

/-- Claim C4: every delivery submitted by the flush closure carries either a
non-empty event list with no error or an error with an empty event list,
never both and never neither; an empty filtered batch produces no delivery
at all, and a stream-error delivery always has an empty events sequence. -/
theorem c4_delivery_shape (running : Bool) (gs : GlobSet) (b : FsPath) :
    (∀ r cb, flushHandler running gs b r = some cb →
      (cb.error = none ∧ cb.events ≠ []) ∨ ((∃ m, cb.error = some m) ∧ cb.events = []))
    ∧ (∀ l, collectEvents gs b l = [] → flushHandler running gs b (Except.ok l) = none)
    ∧ (∀ errs cb, flushHandler running gs b (Except.error errs) = some cb →
      cb.error = some ⟨Status.genericFailure, String.intercalate "; " errs⟩
        ∧ cb.events = []) := by
  refine ⟨?_, ?_, ?_⟩
  · intro r cb hcb
    unfold flushHandler at hcb
    by_cases hr : running = true
    · rw [hr] at hcb
      simp only [Bool.not_true, Bool.false_eq_true, if_false] at hcb
      cases r with
      | ok l =>
        by_cases he : (collectEvents gs b l).isEmpty = true
        · simp [he] at hcb
        · simp only [he, if_false] at hcb
          cases hcb
          refine Or.inl ⟨rfl, fun hnil => he ?_⟩
          have h2 : collectEvents gs b l = [] := hnil
          rw [h2]
          rfl
      | error errs =>
        cases hcb
        exact Or.inr ⟨⟨_, rfl⟩, rfl⟩
    · rw [Bool.not_eq_true] at hr
      rw [hr] at hcb
      simp at hcb
  · intro l hl
    unfold flushHandler
    by_cases hr : running = true
    · rw [hr]
      simp [hl]
    · rw [Bool.not_eq_true] at hr
      rw [hr]
      simp
  · intro errs cb hcb
    unfold flushHandler at hcb
    by_cases hr : running = true
    · rw [hr] at hcb
      simp only [Bool.not_true, Bool.false_eq_true, if_false] at hcb
      cases hcb
      exact ⟨rfl, rfl⟩
    · rw [Bool.not_eq_true] at hr
      rw [hr] at hcb
      simp at hcb

/-- Witness for claim C4: a concrete stream-error flush delivers the joined
error message with an empty event list. -/
theorem c4_delivery_shape_witness :
    ({ error := some ⟨Status.genericFailure, "boom"⟩, events := [] } :
        WatchCallbackResult).error =
      some ⟨Status.genericFailure, String.intercalate "; " ["boom"]⟩
    ∧ ({ error := some ⟨Status.genericFailure, "boom"⟩, events := [] } :
        WatchCallbackResult).events = [] :=
  (c4_delivery_shape true ⟨[], fun _ => false⟩ ⟨true, []⟩).2.2 ["boom"]
    { error := some ⟨Status.genericFailure, "boom"⟩, events := [] } rfl

/-- Claim C6: `unsubscribe` is idempotent and infallible — it returns `Ok`
on every call, leaves the running flag `false` and the watcher slot empty, a
second call is a no-op that releases nothing, and over any number of
successive calls the watch resource is released at most once. -/
theorem c6_unsubscribe_idempotent (s : Subscription) :
    (unsubscribe s).result = Except.ok ()
    ∧ (unsubscribe s).state.running = false
    ∧ (unsubscribe s).state.watcher = none
    ∧ unsubscribe ((unsubscribe s).state) =
        { result := Except.ok (), state := (unsubscribe s).state, released := false }
    ∧ (∀ n, (unsubMany s n).2 ≤ 1) := by
  refine ⟨rfl, rfl, rfl, rfl, ?_⟩
  have h0 : ∀ k, (unsubMany ⟨false, none⟩ k).2 = 0 := by
    intro k
    induction k with
    | zero => rfl
    | succ j ih => simp [unsubMany, unsubscribe, ih]
  intro n
  cases n with
  | zero => simp [unsubMany]
  | succ m =>
    simp only [unsubMany, unsubscribe, h0 m]
    by_cases hw : s.watcher.isSome <;> simp [hw]

theorem compileGlobs_first_error (globNew : String → Except String Glob) :
    ∀ (pre : List String) (bad : String) (rest : List String) (e : String),
      (∀ q ∈ pre, ∃ g, globNew q = Except.ok g) → globNew bad = Except.error e →
      compileGlobs globNew (pre ++ bad :: rest) =
        Except.error ⟨Status.invalidArg,
          "Invalid glob pattern \x27" ++ bad ++ "\x27: " ++ e⟩ := by
  intro pre
  induction pre with
  | nil =>
    intro bad rest e _ hbad
    simp only [List.nil_append, compileGlobs, hbad]
  | cons q qs ih =>
    intro bad rest e hok hbad
    obtain ⟨g, hg⟩ := hok q (List.mem_cons_self q qs)
    simp only [List.cons_append, compileGlobs, hg]
    have h2 := ih bad rest e (fun m hm => hok m (List.mem_cons_of_mem q hm)) hbad
    simp [h2]

theorem compileGlobs_all_ok (globNew : String → Except String Glob)
    (patterns : List String) (globs : List Glob)
    (h : List.Forall₂ (fun q g => globNew q = Except.ok g) patterns globs) :
    compileGlobs globNew patterns = Except.ok globs := by
  induction h with
  | nil => rfl
  | cons hqg _ ih => simp only [compileGlobs, hqg, ih]

/-- Claim C7: ignore-pattern compilation is all-or-nothing — a failing
pattern aborts `build_glob_set` with an `InvalidArg` error naming the
offending pattern, and a `subscribe` call whose other inputs are valid then
returns that error having produced no subscription and performed no side
effect (no watch started); when every pattern compiles, one matcher built
from all the compiled globs is produced, and in `subscribe` the watch is
only ever started after the glob set was built. -/
theorem c7_glob_compilation_atomic (globNew : String → Except String Glob)
    (globBuild : List Glob → Except String (FsPath → Bool)) :
    (∀ (pre : List String) (bad : String) (rest : List String) (e : String),
      (∀ q ∈ pre, ∃ g, globNew q = Except.ok g) → globNew bad = Except.error e →
      build_glob_set globNew globBuild (pre ++ bad :: rest) =
        Except.error ⟨Status.invalidArg,
          "Invalid glob pattern \x27" ++ bad ++ "\x27: " ++ e⟩
      ∧ ∀ (fs : FsModel) (tsfnRes : Except NapiError Unit)
          (debouncerRes watchRes : Except String Unit) (dir : String) (bp : FsPath),
          dir ≠ "" → fs.pathExists dir = true → fs.isDir dir = true →
          fs.canonicalize dir = Except.ok bp →
          subscribe fs globNew globBuild tsfnRes debouncerRes watchRes dir
              ValueType.function (some ⟨some (pre ++ bad :: rest)⟩) =
            ⟨Except.error ⟨Status.invalidArg,
              "Invalid glob pattern \x27" ++ bad ++ "\x27: " ++ e⟩, none, []⟩)
    ∧ (∀ (patterns : List String) (globs : List Glob) (matcher : FsPath → Bool),
        List.Forall₂ (fun q g => globNew q = Except.ok g) patterns globs →
        globBuild globs = Except.ok matcher →
        build_glob_set globNew globBuild patterns = Except.ok ⟨globs, matcher⟩)
    ∧ (∀ (fs : FsModel) (tsfnRes : Except NapiError Unit)
        (debouncerRes watchRes : Except String Unit) (dir : String)
        (cbt : ValueType) (opts : Option WatchOptions),
        Effect.watchStarted ∈
          (subscribe fs globNew globBuild tsfnRes debouncerRes watchRes dir cbt opts).effects →
        (subscribe fs globNew globBuild tsfnRes debouncerRes watchRes dir cbt opts).effects =
          [Effect.globBuilt, Effect.tsfnBuilt, Effect.debouncerCreated,
            Effect.watchStarted]) := by
  refine ⟨?_, ?_, ?_⟩
  · intro pre bad rest e hok hbad
    have hbuild : build_glob_set globNew globBuild (pre ++ bad :: rest) =
        Except.error ⟨Status.invalidArg,
          "Invalid glob pattern \x27" ++ bad ++ "\x27: " ++ e⟩ := by
      unfold build_glob_set
      rw [compileGlobs_first_error globNew pre bad rest e hok hbad]
    refine ⟨hbuild, ?_⟩
    intro fs tsfnRes debouncerRes watchRes dir bp hdir hex hisdir hcanon
    simp [subscribe, hdir, hex, hisdir, hcanon, hbuild]
  · intro patterns globs matcher hall hbuild
    unfold build_glob_set
    rw [compileGlobs_all_ok globNew patterns globs hall]
    simp [hbuild]
  · intro fs tsfnRes debouncerRes watchRes dir cbt opts h
    by_cases h1 : dir = ""
    · simp [subscribe, h1] at h
    · by_cases h2 : cbt = ValueType.function
      · by_cases h3 : fs.pathExists dir = true
        · by_cases h4 : fs.isDir dir = true
          · rcases hc : fs.canonicalize dir with ce | bp
            · simp [subscribe, h1, h2, h3, h4, hc] at h
            · rcases hb : build_glob_set globNew globBuild
                  ((opts.bind (fun o => o.ignore)).getD []) with be | gsv
              · simp [subscribe, h1, h2, h3, h4, hc, hb] at h
              · rcases tsfnRes with te | tv
                · simp [subscribe, h1, h2, h3, h4, hc, hb] at h
                · rcases debouncerRes with de | dv
                  · simp [subscribe, h1, h2, h3, h4, hc, hb] at h
                  · rcases watchRes with we | wv
                    · simp [subscribe, h1, h2, h3, h4, hc, hb] at h
                    · simp [subscribe, h1, h2, h3, h4, hc, hb]
          · simp [subscribe, h1, h2, h3, h4] at h
        · simp [subscribe, h1, h2, h3] at h
      · simp [subscribe, h1, h2] at h

/-- Witness for claim C7: a concrete pattern list where `"*.tmp"` compiles
and `"["` fails aborts `build_glob_set` with the error naming `"["`. -/
theorem c7_glob_compilation_atomic_witness :
    build_glob_set
      (fun q => if q = "[" then Except.error "unclosed character class"
        else Except.ok ⟨q⟩)
      (fun _ => Except.ok (fun _ => false)) (["*.tmp"] ++ "[" :: []) =
      Except.error ⟨Status.invalidArg,
        "Invalid glob pattern \x27[\x27: unclosed character class"⟩ :=
  ((c7_glob_compilation_atomic
      (fun q => if q = "[" then Except.error "unclosed character class"
        else Except.ok ⟨q⟩)
      (fun _ => Except.ok (fun _ => false))).1 ["*.tmp"] "[" []
    "unclosed character class"
    (by
      intro q hq
      rw [List.mem_singleton] at hq
      subst hq
      exact ⟨⟨"*.tmp"⟩, rfl⟩)
    rfl).1

/-- Claim C8: every invalid input to `subscribe` — empty directory,
non-function callback, nonexistent path, non-directory path, malformed glob
pattern — fails synchronously with no effect performed, no subscription
returned, and an error (thrown `JsTypeError` message or returned error)
identifying the failed precondition and the offending value. -/
theorem c8_subscribe_validation (fs : FsModel)
    (globNew : String → Except String Glob)
    (globBuild : List Glob → Except String (FsPath → Bool))
    (tsfnRes : Except NapiError Unit) (debouncerRes watchRes : Except String Unit)
    (dir : String) (cbt : ValueType) (opts : Option WatchOptions) :
    (dir = "" →
      subscribe fs globNew globBuild tsfnRes debouncerRes watchRes dir cbt opts =
        ⟨Except.error ⟨Status.pendingException, ""⟩,
          some "Directory path cannot be empty", []⟩)
    ∧ (dir ≠ "" → cbt ≠ ValueType.function →
      subscribe fs globNew globBuild tsfnRes debouncerRes watchRes dir cbt opts =
        ⟨Except.error ⟨Status.pendingException, ""⟩,
          some "Callback must be a function", []⟩)
    ∧ (dir ≠ "" → cbt = ValueType.function → fs.pathExists dir = false →
      subscribe fs globNew globBuild tsfnRes debouncerRes watchRes dir cbt opts =
        ⟨Except.error ⟨Status.pendingException, ""⟩,
          some ("Directory does not exist: " ++ dir), []⟩)
    ∧ (dir ≠ "" → cbt = ValueType.function → fs.pathExists dir = true →
      fs.isDir dir = false →
      subscribe fs globNew globBuild tsfnRes debouncerRes watchRes dir cbt opts =
        ⟨Except.error ⟨Status.pendingException, ""⟩,
          some ("Path is not a directory: " ++ dir), []⟩)
    ∧ (∀ (bp : FsPath) (pre : List String) (bad : String) (rest : List String)
        (e : String),
      dir ≠ "" → cbt = ValueType.function → fs.pathExists dir = true →
      fs.isDir dir = true → fs.canonicalize dir = Except.ok bp →
      (opts.bind (fun o => o.ignore)).getD [] = pre ++ bad :: rest →
      (∀ q ∈ pre, ∃ g, globNew q = Except.ok g) → globNew bad = Except.error e →
      subscribe fs globNew globBuild tsfnRes debouncerRes watchRes dir cbt opts =
        ⟨Except.error ⟨Status.invalidArg,
          "Invalid glob pattern \x27" ++ bad ++ "\x27: " ++ e⟩, none, []⟩) := by
  refine ⟨?_, ?_, ?_, ?_, ?_⟩
  · intro h1
    simp [subscribe, h1]
  · intro h1 h2
    simp [subscribe, h1, h2]
  · intro h1 h2 h3
    simp [subscribe, h1, h2, h3]
  · intro h1 h2 h3 h4
    simp [subscribe, h1, h2, h3, h4]
  · intro bp pre bad rest e h1 h2 h3 h4 hc hpat hok hbad
    have hbuild : build_glob_set globNew globBuild
        ((opts.bind (fun o => o.ignore)).getD []) =
        Except.error ⟨Status.invalidArg,
          "Invalid glob pattern \x27" ++ bad ++ "\x27: " ++ e⟩ := by
      rw [hpat]
      unfold build_glob_set
      rw [compileGlobs_first_error globNew pre bad rest e hok hbad]
    simp [subscribe, h1, h2, h3, h4, hc, hbuild]

/-- Witness for claim C8: a concrete `subscribe` call with an empty
directory path. -/
theorem c8_subscribe_validation_witness :
    subscribe ⟨fun _ => false, fun _ => false, fun _ => Except.error "io"⟩
      (fun q => Except.ok ⟨q⟩) (fun _ => Except.ok (fun _ => false))
      (Except.ok ()) (Except.ok ()) (Except.ok ()) "" ValueType.function none =
      ⟨Except.error ⟨Status.pendingException, ""⟩,
        some "Directory path cannot be empty", []⟩ :=
  (c8_subscribe_validation ⟨fun _ => false, fun _ => false, fun _ => Except.error "io"⟩
    (fun q => Except.ok ⟨q⟩) (fun _ => Except.ok (fun _ => false))
    (Except.ok ()) (Except.ok ()) (Except.ok ()) "" ValueType.function none).1 rfl

/-- Claim C9: the two crates are duplicated scaffolding — `should_ignore`
agrees pointwise between `src/src/lib.rs` and `src/watcher/src/lib.rs`, and
the two `event_kind_to_type` functions agree under the correspondence
`Create ↔ "create"`, `Update ↔ "update"`, `Delete ↔ "delete"`, returning
`none` on exactly the same platform kinds. -/
theorem c9_duplicated_scaffolding_agree :
    (∀ (p : FsPath) (gs : GlobSet) (b : FsPath),
      should_ignore p gs b = Dup.should_ignore p gs b)
    ∧ (∀ k : EventKind,
      event_kind_to_type k = Option.map Dup.eventTypeValue (Dup.event_kind_to_type k)) := by
  constructor
  · intro p gs b; rfl
  · intro k
    cases k with
    | create ck => cases ck <;> rfl
    | modify mk => cases mk <;> rfl
    | remove rk => cases rk <;> rfl
    | access a => rfl
    | any => rfl
    | other => rfl

/-- Claim C3: `should_ignore` returns true iff the root-relative form (when
the strip succeeds) matches the pattern set or the full path does; and the
full-path query is consulted exactly when no relative match fired. -/
theorem c3_should_ignore_spec (p : FsPath) (gs : GlobSet) (b : FsPath) :
    (should_ignore p gs b = true ↔
      ((∃ rel, strip_prefix p b = some rel ∧ gs.is_match rel = true)
        ∨ gs.is_match p = true))
    ∧ (CheckKind.absolute ∈ should_ignore_checks p gs b ↔
      ¬ ∃ rel, strip_prefix p b = some rel ∧ gs.is_match rel = true) := by
  unfold should_ignore should_ignore_checks
  cases h : strip_prefix p b with
  | none =>
    constructor
    · simp
    · simp
  | some rel =>
    by_cases hm : gs.is_match rel = true
    · constructor
      · simp only [hm, if_true, true_iff]
        exact Or.inl ⟨rel, rfl, hm⟩
      · simp [hm]
    · constructor
      · simp only [hm, if_false]
        constructor
        · intro habs; exact Or.inr habs
        · intro hor
          rcases hor with ⟨rel2, hr2, hm2⟩ | habs
          · cases hr2
            exact absurd hm2 hm
          · exact habs
      · simp [hm]

/-- Claim C10: when stripping the watch root fails (path outside the root,
or the absolute/relative shapes disagree), `should_ignore` does not error and
its result is exactly the pattern set matched against the unmodified path —
the root-relative check is simply skipped. -/
theorem c10_outside_root_total (p : FsPath) (gs : GlobSet) (b : FsPath)
    (h : strip_prefix p b = none) :
    should_ignore p gs b = gs.is_match p := by
  unfold should_ignore
  rw [h]

/-- Witness for claim C10 at a concrete relative path queried against an
absolute root. -/
theorem c10_outside_root_total_witness :
    should_ignore ⟨false, ["a"]⟩ ⟨[], fun q => q.components = ["a"]⟩ ⟨true, []⟩ =
      GlobSet.is_match ⟨[], fun q => q.components = ["a"]⟩ ⟨false, ["a"]⟩ :=
  c10_outside_root_total ⟨false, ["a"]⟩ ⟨[], fun q => q.components = ["a"]⟩ ⟨true, []⟩ rfl

end Watcher
